import Mathlib

/-!
Shallow embedding of `TinySTL/string.h` (`tiny_stl::basic_string`), instantiated
at `value_type = char` (`tiny_stl::string`), together with proofs and refutations
of the specification claims about it.

Modelling conventions:
* `size_type` is `std::size_t` (64 bits); all size arithmetic in the modelled
  paths stays far below `2^64`, and the one place the source guards against
  overflow (`capacityGrowth`) is embedded with its guard, so sizes are `Nat`.
* Characters are modelled as their `Nat` codes; `value_type()` (the sentinel) is `0`.
* The `union Data { buf; ptr; }` member is modelled as an inductive recording the
  last-written member.  Reading the member that is not active (a type-punning read
  of garbage bytes in C++) is modelled as an undefined read (`Option.none`).
* The allocator is instrumented: a heap of live blocks plus a trace of
  allocate / write / deallocate events, so that claims about allocation counts,
  deallocation sizes and event ordering are statable.  A possible allocation
  failure (`allocate` throwing) is modelled by the `allocOk : Bool` oracle.
* Exceptions (`xRange`, `xLength`, allocation failure) are modelled by an error
  component in the result; when an operation throws, the returned string state and
  allocator state are those at the throw point.
-/

namespace TinyStl

/-- Constant `StringValue::kBufferSize = 16 / sizeof(value_type)`; for `char` this is 16. -/
def kBufferSize : Nat := 16 / 1

/-- Constant `StringValue::kBufferMask`: for `sizeof(value_type) <= 1` this is 15. -/
def kBufferMask : Nat := 15

/-- Constant `npos = static_cast<size_type>(-1)`. -/
def npos : Nat := 2 ^ 64 - 1

/-- Source `max_size() = min(static_cast<size_type>(-1) / sizeof(value_type) - 1,
    numeric_limits<ptrdiff_t>::max())`; for `char` this is `2^63 - 1`. -/
def max_size : Nat := min ((2 ^ 64 - 1) / 1 - 1) (2 ^ 63 - 1)

/-- The `union Data` member of `StringValue`: either the inline array `buf`
(length `kBufferSize`) or the heap pointer `ptr` (a block id) is the
last-written (active) member. -/
inductive Data where
  | buf (a : List Nat)
  | ptr (p : Nat)
deriving DecidableEq

/-- Reading the `ptr` member of the union, as `reallocAndAssign` and `tidy` do.
When `buf` is the active member this is a type-punning read of garbage; the
claims never reach that case, and it is given the junk value `0`. -/
def Data.ptrVal : Data → Nat
  | .ptr p => p
  | .buf _ => 0

/-- The storage record `StringValue` of `basic_string<char>`. -/
structure StringValue where
  size : Nat
  capacity : Nat
  data : Data
deriving DecidableEq

/-- The default-constructed `StringValue`: `size = 0`, `capacity = 0`, and
`Data() : buf()` value-initializes the inline array to zeros. -/
def StringValue.mkDefault : StringValue :=
  { size := 0, capacity := 0, data := Data.buf (List.replicate kBufferSize 0) }

/-- Source `StringValue::isShortString(): capacity < kBufferSize`. -/
def StringValue.isShortString (v : StringValue) : Bool :=
  v.capacity < kBufferSize

/-- Allocator / heap events observed by an instrumented allocator. -/
inductive Event where
  | allocE (p n : Nat)
  | writeE (p : Nat)
  | deallocE (p n : Nat)
deriving DecidableEq

def Event.isAlloc : Event → Bool
  | .allocE _ _ => true
  | _ => false

def Event.isDealloc : Event → Bool
  | .deallocE _ _ => true
  | _ => false

/-- Instrumented allocator state: the next fresh block id, the live heap blocks
`(id, allocated slot count, contents)`, and the event trace. -/
structure AllocState where
  next : Nat
  blocks : List (Nat × Nat × List Nat)
  events : List Event
deriving DecidableEq

def AllocState.empty : AllocState :=
  { next := 0, blocks := [], events := [] }

/-- Model of `alloc.allocate(n)`: returns a fresh block id; the fresh memory is
uninitialized (its modelled content, all zeros, is never read before being
written in the modelled paths). -/
def AllocState.allocate (al : AllocState) (n : Nat) : Nat × AllocState :=
  (al.next,
   { next := al.next + 1,
     blocks := (al.next, n, List.replicate n 0) :: al.blocks,
     events := al.events ++ [Event.allocE al.next n] })

/-- Model of `alloc.deallocate(p, n)`: removes the block from the live heap. -/
def AllocState.deallocate (al : AllocState) (p n : Nat) : AllocState :=
  { al with
    blocks := al.blocks.filter (fun b => !(b.1 == p)),
    events := al.events ++ [Event.deallocE p n] }

/-- Overwrite the front of a buffer with new content, keeping the tail. -/
def overwriteFront (old new : List Nat) : List Nat :=
  new ++ old.drop new.length

/-- Write `content` into block `p` starting at offset 0 (a writer populating a
heap buffer through its pointer). -/
def AllocState.writeBlock (al : AllocState) (p : Nat) (content : List Nat) : AllocState :=
  { al with
    blocks := al.blocks.map (fun b => if b.1 == p then (b.1, b.2.1, overwriteFront b.2.2 content) else b),
    events := al.events ++ [Event.writeE p] }

def AllocState.lookupBlock (al : AllocState) (p : Nat) : Option (List Nat) :=
  (al.blocks.find? (fun b => b.1 == p)).map (fun b => b.2.2)

/-- Count of `allocate` calls recorded in the trace. -/
def allocCalls (al : AllocState) : Nat :=
  (al.events.filter Event.isAlloc).length

/-- Count of `deallocate` calls recorded in the trace. -/
def deallocCalls (al : AllocState) : Nat :=
  (al.events.filter Event.isDealloc).length

/-- Reading through `StringValue::getPtr()`: a read of the whole character buffer it addresses:
`ptr = data.ptr; if (isShortString()) ptr = data.buf; return ptr;`.
If the member the branch selects is not the active union member, the read is
undefined (`none`). -/
def getPtrChars (v : StringValue) (al : AllocState) : Option (List Nat) :=
  if v.isShortString then
    match v.data with
    | Data.buf a => some a
    | Data.ptr _ => none
  else
    match v.data with
    | Data.ptr p => al.lookupBlock p
    | Data.buf _ => none

/-- The observable character content of a string: the first `size` characters of
the buffer addressed by `getPtr()`. -/
def observedContent (v : StringValue) (al : AllocState) : Option (List Nat) :=
  (getPtrChars v al).map (fun l => l.take v.size)

/-- Writing `content` through `getPtr()` starting at offset 0 (the in-place
branches of `init`).  Writing the inline member while `ptr` was the last-written
member re-activates `buf`; the bytes beyond the written content are then
unspecified (modelled as zeros; no claim reads them). -/
def writeThroughPtr (v : StringValue) (al : AllocState) (content : List Nat) :
    StringValue × AllocState :=
  if v.isShortString then
    match v.data with
    | Data.buf a => ({ v with data := Data.buf (overwriteFront a content) }, al)
    | Data.ptr _ =>
        ({ v with data := Data.buf (overwriteFront (List.replicate kBufferSize 0) content) }, al)
  else
    match v.data with
    | Data.ptr p => (v, al.writeBlock p content)
    | Data.buf _ => (v, al)

/-- The errors the string signals: `xRange` (OutOfRange), `xLength` (LengthError),
and a failed allocator request. -/
inductive Err where
  | outOfRange
  | lengthError
  | allocFailure
deriving DecidableEq

/-- Result of a possibly-throwing string operation: the error (if one was
thrown) together with the string state and allocator state at exit. -/
structure RRes where
  err : Option Err
  val : StringValue
  al : AllocState
deriving DecidableEq

/-- Source `basic_string::initEmpty()`: `size = 0; capacity = kBufferSize - 1;
data.buf[0] = value_type();`.  Writing `buf[0]` re-activates the inline member;
when `ptr` was active the other 15 slots are unspecified bytes (modelled as
zeros; only `buf[0]` is ever read while `size = 0`). -/
def initEmpty (v : StringValue) : StringValue :=
  { v with
    size := 0
    capacity := kBufferSize - 1
    data :=
      match v.data with
      | Data.buf a => Data.buf (a.set 0 0)
      | Data.ptr _ => Data.buf (List.replicate kBufferSize 0) }

/-- Source `basic_string::capacityGrowth(newSize)` with the current size passed
explicitly (the source reads it from `allocVal.get_second().size`).
`newSize | kBufferMask` is bitwise or with the width mask. -/
def capacityGrowth (oldSize newSize : Nat) : Nat :=
  if max_size < (newSize ||| kBufferMask) then max_size
  else if max_size - oldSize / 2 < oldSize then max_size
  else max (newSize ||| kBufferMask) (oldSize + oldSize / 2)

/-- Source `basic_string::reallocAndAssign(newSize, func, args...)`.  The writer `func`
is modelled as the content (characters plus sentinel) it writes at the front of
the fresh buffer for a given `newSize`.  `allocOk` is the allocation oracle:
when false, `alloc.allocate` throws and, since the source mutates nothing before
that call, the state at the throw point is the pre-call state.
Source order: `checkLength(newSize)`; read `oldCapacity`; compute
`newCapacity = capacityGrowth(newSize)`; `allocate(newCapacity + 1)`; set
`size`/`capacity`; run `func` on the new buffer; if `oldCapacity >= kBufferSize`
deallocate `data.ptr` with `oldCapacity + 1`; store the new pointer. -/
def reallocAndAssign (v : StringValue) (al : AllocState) (allocOk : Bool)
    (newSize : Nat) (writer : Nat → List Nat) : RRes :=
  if max_size ≤ newSize then ⟨some Err.lengthError, v, al⟩
  else if allocOk then
    let newCapacity := capacityGrowth v.size newSize
    let p := al.next
    let al1 := (al.allocate (newCapacity + 1)).2
    let al2 := al1.writeBlock p (writer newSize)
    let al3 := if kBufferSize ≤ v.capacity
               then al2.deallocate v.data.ptrVal (v.capacity + 1)
               else al2
    ⟨none, { v with size := newSize, capacity := newCapacity, data := Data.ptr p }, al3⟩
  else ⟨some Err.allocFailure, v, al⟩

/-- Source `basic_string::init(count, ch)` (fill): if `count <= capacity`, write in
place through `getPtr()` (`assign(ptr, count, ch); ptr[count] = value_type()`),
else delegate to `reallocAndAssign` with the fill writer. -/
def initFill (v : StringValue) (al : AllocState) (allocOk : Bool)
    (count ch : Nat) : RRes :=
  if count ≤ v.capacity then
    let r := writeThroughPtr { v with size := count } al (List.replicate count ch ++ [0])
    ⟨none, r.1, r.2⟩
  else
    reallocAndAssign v al allocOk count (fun n => List.replicate n ch ++ [0])

/-- Source `basic_string::init(str, count)` (copy from a raw pointer): `str` is the
character sequence at the source pointer.  The source text reads
`getVal().capacity()` (the `capacity` field) for the fit test, and its realloc
writer assigns the sentinel at `dst[count]` (written there as a stray
`Traits::move`, with assignment the only possible meaning). -/
def initCopy (v : StringValue) (al : AllocState) (allocOk : Bool)
    (str : List Nat) (count : Nat) : RRes :=
  if count ≤ v.capacity then
    let r := writeThroughPtr { v with size := count } al (str.take count ++ [0])
    ⟨none, r.1, r.2⟩
  else
    reallocAndAssign v al allocOk count (fun n => str.take n ++ [0])

/-- Source `basic_string::init(rhs, pos, count)` (substring): `rhs.checkIndex(pos)`
(throwing OutOfRange when `pos > rhs.size`), then
`count = min(count, rhs.size - pos)`, then `init(rhs.getVal().getPtr(), count)`.
`rhsBuf` is the character sequence at `rhs.getVal().getPtr()` — note the source
passes that pointer itself, not `getPtr() + pos`. -/
def initSub (v : StringValue) (al : AllocState) (allocOk : Bool)
    (rhs : StringValue) (rhsBuf : List Nat) (pos count : Nat) : RRes :=
  if rhs.size < pos then ⟨some Err.outOfRange, v, al⟩
  else initCopy v al allocOk rhsBuf (min count (rhs.size - pos))

/-- Constructor `basic_string(count, ch, a)`: default-constructs the `StringValue` member
(note: no `initEmpty()` call in this constructor) then runs `init(count, ch)`. -/
def fillConstruct (al : AllocState) (allocOk : Bool) (count ch : Nat) : RRes :=
  initFill StringValue.mkDefault al allocOk count ch

/-- Constructor `basic_string(str, count, a)`: default `StringValue`, then `initEmpty()`
("for setting capacity"), then `init(str, count)`. -/
def ptrConstruct (al : AllocState) (allocOk : Bool) (str : List Nat) (count : Nat) : RRes :=
  initCopy (initEmpty StringValue.mkDefault) al allocOk str count

/-- Constructor `basic_string(rhs, pos, count, a)`: default `StringValue`, then
`initEmpty()`, then `init(rhs, pos, count)`. -/
def subConstruct (al : AllocState) (allocOk : Bool)
    (rhs : StringValue) (rhsBuf : List Nat) (pos count : Nat) : RRes :=
  initSub (initEmpty StringValue.mkDefault) al allocOk rhs rhsBuf pos count

/-- Source `basic_string::shrink_to_fit()`: the body is `// do nothing`. -/
def shrink_to_fit (v : StringValue) : StringValue := v

/-- Source `basic_string::reserve(newCapacity)`: shrink request delegates to
`shrink_to_fit`; `newCapacity <= capacity` returns; the grow branch only reads
`oldSize` and `value` into locals and mutates nothing (its body is truncated in
the source). -/
def reserve (v : StringValue) (al : AllocState) (newCapacity : Nat) :
    StringValue × AllocState :=
  if newCapacity < v.size then (shrink_to_fit v, al)
  else if newCapacity ≤ v.capacity then (v, al)
  else (v, al)

/-- Source `basic_string::tidy()` (the destructor body): if not a short string,
`deallocate(getPtr(), capacity + 1)` (with `getPtr()` reading `data.ptr` in
that branch); then `initEmpty()`. -/
def tidy (v : StringValue) (al : AllocState) : StringValue × AllocState :=
  if v.isShortString then (initEmpty v, al)
  else (initEmpty v, al.deallocate v.data.ptrVal (v.capacity + 1))

/-- Cursor `StringConstIterator<char>`: a raw cursor holding the buffer address. -/
structure StringConstIterator where
  ptr : Int
deriving DecidableEq

/-- Source `StringConstIterator::operator++()` (pre): `++ptr`. -/
def StringConstIterator.preIncrement (it : StringConstIterator) : StringConstIterator :=
  ⟨it.ptr + 1⟩

/-- Source `StringConstIterator::operator--()` (pre): the source body is `++ptr;
return *this;` — it advances the pointer. -/
def StringConstIterator.preDecrement (it : StringConstIterator) : StringConstIterator :=
  ⟨it.ptr + 1⟩

/-- Cursor `StringIterator<char>`: the mutable cursor, derived from the read-only one. -/
structure StringIterator where
  ptr : Int
deriving DecidableEq

/-- Source `StringIterator::operator++()` (pre): `++*static_cast<Base*>(this)`. -/
def StringIterator.preIncrement (it : StringIterator) : StringIterator :=
  ⟨(StringConstIterator.preIncrement ⟨it.ptr⟩).ptr⟩

/-- Source `StringIterator::operator--()` (pre): `--*static_cast<Base*>(this)`,
delegating to the base class pre-decrement. -/
def StringIterator.preDecrement (it : StringIterator) : StringIterator :=
  ⟨(StringConstIterator.preDecrement ⟨it.ptr⟩).ptr⟩

/-- The character codes of `"hello world"` (ASCII). -/
def helloWorldChars : List Nat := [104, 101, 108, 108, 111, 32, 119, 111, 114, 108, 100]

/-- The character codes of `"hello"`. -/
def helloChars : List Nat := [104, 101, 108, 108, 111]

/-- The character codes of `"world"`. -/
def worldChars : List Nat := [119, 111, 114, 108, 100]

/-- The string `s = "hello world"`, built by the raw-pointer constructor. -/
def helloWorld : RRes := ptrConstruct AllocState.empty true helloWorldChars 11

/-- The inline buffer of `helloWorld.val`: the 11 characters, the sentinel, and
the 4 untouched zero slots. -/
def hwBuf : List Nat := helloWorldChars ++ 0 :: List.replicate 4 0


/-- Helper: the substring constructor applied to `s = "hello world"` at a given
position and count. -/
def hwSub (pos count : Nat) : RRes :=
  subConstruct AllocState.empty true helloWorld.val hwBuf pos count

/-- Helper: the string produced by the fill constructor `basic_string(1, char(97))`. -/
def fill1 : RRes := fillConstruct AllocState.empty true 1 97

/-- C1: the substring constructor validates `pos` and clamps `count`, but
`init(rhs, pos, count)` passes `rhs.getVal().getPtr()` without the `+ pos`
offset, so `construct("hello world", 6, 5)` yields the characters of `"hello"`,
not `"world"` as the claim states; the `pos = 11` (empty result) and `pos = 12`
(OutOfRange) parts behave as claimed. -/
theorem substring_construct_copies_from_front :
    getPtrChars helloWorld.val helloWorld.al = some hwBuf ∧
    helloWorld.val.size = 11 ∧
    (hwSub 6 5).err = none ∧
    observedContent (hwSub 6 5).val (hwSub 6 5).al = some helloChars ∧
    helloChars ≠ worldChars ∧
    (hwSub 11 5).err = none ∧
    (hwSub 11 5).val.size = 0 ∧
    (hwSub 12 5).err = some Err.outOfRange := by decide

/-- C2: the representation discriminant can disagree with the active storage.
The fill constructor `basic_string(1, char(97))` never calls `initEmpty`, so
`init` sees `capacity = 0`, delegates to `reallocAndAssign`, and
`capacityGrowth` returns 15; the resulting reachable state has
`capacity = 15 < kBufferSize` (so `isShortString()` reports the inline array
as active) while the heap pointer is the actually active union member. -/
theorem fill_construct_breaks_representation_invariant :
    fill1.err = none ∧
    fill1.val.capacity = 15 ∧
    fill1.val.capacity < kBufferSize ∧
    fill1.val.isShortString = true ∧
    fill1.val.data = Data.ptr 0 := by decide

/-- C3: constructing with `count = 1 < kBufferSize` characters through the fill
constructor performs a heap allocation (the claim says it never does): the
constructor skips `initEmpty`, so the fit test compares against `capacity = 0`
and the growth path is taken. -/
theorem short_fill_construct_allocates :
    1 < kBufferSize ∧
    allocCalls AllocState.empty = 0 ∧
    allocCalls fill1.al = 1 := by decide

/-- C4: fill construction `basic_string(1, char(97))` sets `size() = 1` and
writes the character and sentinel into a fresh heap block, but the resulting
state classifies itself as a short string, so the buffer addressed by
`getPtr()` is the never-written inline member (an undefined read), not a
buffer holding character 97 at index 0 as the claim requires. -/
theorem fill_construct_buffer_not_filled :
    fill1.val.size = 1 ∧
    getPtrChars fill1.val fill1.al = none ∧
    fill1.al.lookupBlock 0 = some (97 :: 0 :: List.replicate 14 0) := by decide

/-- C5: a grow request is silently ignored: on the empty string
(`capacity() = 15`), `reserve(100)` leaves size, capacity, content and the
allocator untouched, so `capacity()` stays 15 < 100; the claim (and the spec
contract) require a capacity of at least 100 after the call. -/
theorem reserve_grow_request_ignored :
    (initEmpty StringValue.mkDefault).capacity = 15 ∧
    reserve (initEmpty StringValue.mkDefault) AllocState.empty 100
      = (initEmpty StringValue.mkDefault, AllocState.empty) ∧
    (reserve (initEmpty StringValue.mkDefault) AllocState.empty 100).1.capacity = 15 ∧
    (15 : Nat) < 100 := by decide

/-- C6: in `reallocAndAssign`, if the allocation fails the object and the
allocator are exactly their pre-call states (no partial mutation, nothing
freed), and on success the event trace appends the allocation of the new
buffer, then its population by the writer, and only then — when the previous
capacity was at least `kBufferSize`, i.e. the previous representation was
heap — the deallocation of the previous block with size `oldCapacity + 1`. -/
theorem reallocAndAssign_frees_only_after_populate (v : StringValue) (al : AllocState)
    (newSize : Nat) (writer : Nat → List Nat) (h : newSize < max_size) :
    reallocAndAssign v al false newSize writer = ⟨some Err.allocFailure, v, al⟩ ∧
    (reallocAndAssign v al true newSize writer).al.events
      = al.events
        ++ [Event.allocE al.next (capacityGrowth v.size newSize + 1), Event.writeE al.next]
        ++ (if kBufferSize ≤ v.capacity
            then [Event.deallocE v.data.ptrVal (v.capacity + 1)]
            else []) := by
  have hlen : ¬ max_size ≤ newSize := Nat.not_le.mpr h
  constructor
  · simp [reallocAndAssign, hlen]
  · by_cases hc : kBufferSize ≤ v.capacity
    · simp [reallocAndAssign, hlen, hc, AllocState.allocate, AllocState.writeBlock,
        AllocState.deallocate]
    · simp [reallocAndAssign, hlen, hc, AllocState.allocate, AllocState.writeBlock]

/-- Witness for C6 at a concrete input: the empty short string, a failed and a
successful reallocation to size 20. -/
theorem reallocAndAssign_frees_only_after_populate_witness :
    20 < max_size ∧
    (reallocAndAssign (initEmpty StringValue.mkDefault) AllocState.empty false 20
        (fun n => List.replicate n 97 ++ [0])
      = ⟨some Err.allocFailure, initEmpty StringValue.mkDefault, AllocState.empty⟩ ∧
    (reallocAndAssign (initEmpty StringValue.mkDefault) AllocState.empty true 20
        (fun n => List.replicate n 97 ++ [0])).al.events
      = AllocState.empty.events
        ++ [Event.allocE AllocState.empty.next
              (capacityGrowth (initEmpty StringValue.mkDefault).size 20 + 1),
            Event.writeE AllocState.empty.next]
        ++ (if kBufferSize ≤ (initEmpty StringValue.mkDefault).capacity
            then [Event.deallocE (initEmpty StringValue.mkDefault).data.ptrVal
                    ((initEmpty StringValue.mkDefault).capacity + 1)]
            else [])) :=
  ⟨by decide, reallocAndAssign_frees_only_after_populate _ _ _ _ (by decide)⟩

/-- C7: the growth path raises LengthError exactly when `newSize >= max_size()`,
and in that case it returns with the string and allocator untouched (so before
any allocator call); in particular the fill construction attempt with
`count = max_size()` signals LengthError with no allocation performed. -/
theorem growth_length_check_before_alloc (v : StringValue) (al : AllocState)
    (ok : Bool) (newSize : Nat) (writer : Nat → List Nat) :
    ((reallocAndAssign v al ok newSize writer).err = some Err.lengthError ↔
      max_size ≤ newSize) ∧
    (max_size ≤ newSize →
      reallocAndAssign v al ok newSize writer = ⟨some Err.lengthError, v, al⟩) ∧
    fillConstruct AllocState.empty ok max_size 97
      = ⟨some Err.lengthError, StringValue.mkDefault, AllocState.empty⟩ := by
  refine ⟨?_, ?_, ?_⟩
  · by_cases h : max_size ≤ newSize
    · simp [reallocAndAssign, h]
    · cases ok <;> simp [reallocAndAssign, h]
  · intro h
    simp [reallocAndAssign, h]
  · cases ok <;> decide

/-- Witness for C7 at a concrete input: the default string state and a request
of exactly `max_size()`. -/
theorem growth_length_check_before_alloc_witness :
    ((reallocAndAssign StringValue.mkDefault AllocState.empty true max_size
        (fun n => List.replicate n 97 ++ [0])).err = some Err.lengthError ↔
      max_size ≤ max_size) ∧
    (max_size ≤ max_size →
      reallocAndAssign StringValue.mkDefault AllocState.empty true max_size
          (fun n => List.replicate n 97 ++ [0])
        = ⟨some Err.lengthError, StringValue.mkDefault, AllocState.empty⟩) ∧
    fillConstruct AllocState.empty true max_size 97
      = ⟨some Err.lengthError, StringValue.mkDefault, AllocState.empty⟩ :=
  growth_length_check_before_alloc StringValue.mkDefault AllocState.empty true max_size
    (fun n => List.replicate n 97 ++ [0])

/-- C8: a construct-then-destroy lifetime leaks the heap block: the fill
constructor `basic_string(1, char(97))` allocates a 16-slot block, but because
the resulting capacity 15 classifies the string as short, `tidy()` (the
destructor) deallocates nothing — one allocate call, zero deallocate calls,
and the block is still live after destruction. -/
theorem fill_construct_destroy_leaks_block :
    allocCalls (tidy fill1.val fill1.al).2 = 1 ∧
    deallocCalls (tidy fill1.val fill1.al).2 = 0 ∧
    (tidy fill1.val fill1.al).2.blocks = [(0, 16, 97 :: 0 :: List.replicate 14 0)] := by decide

/-- Counterexample for C9: at `currentSize = 101`, `requestedSize = 102` the
no-overflow condition holds and the mask-rounded request (111) is below
`max_size()`, yet the returned capacity is `151 = 101 + 101 / 2`, which is
strictly below `1.5 × 101 = 151.5` (equivalently `2 × 151 < 3 × 101`). -/
theorem capacityGrowth_below_rational_three_halves :
    101 ≤ max_size - 101 / 2 ∧
    (102 ||| kBufferMask) ≤ max_size ∧
    capacityGrowth 101 102 = 151 ∧
    ¬ (3 * 101 ≤ 2 * capacityGrowth 101 102) := by decide

/-- C9 (amended): under the no-overflow condition and a mask-rounded request
not exceeding `max_size()`, `capacityGrowth` returns at least
`currentSize + currentSize / 2` (integer division — the floor of
`1.5 × currentSize`), and the result never exceeds `max_size()`. -/
theorem capacityGrowth_bounds (oldSize newSize : Nat)
    (h1 : oldSize ≤ max_size - oldSize / 2)
    (h2 : (newSize ||| kBufferMask) ≤ max_size) :
    oldSize + oldSize / 2 ≤ capacityGrowth oldSize newSize ∧
    capacityGrowth oldSize newSize ≤ max_size := by
  unfold capacityGrowth
  rw [if_neg (Nat.not_lt.mpr h2), if_neg (Nat.not_lt.mpr h1)]
  refine ⟨Nat.le_max_right _ _, Nat.max_le.mpr ⟨h2, ?_⟩⟩
  omega

/-- Witness for the amended C9 at a concrete input: `currentSize = 100`,
`requestedSize = 20`. -/
theorem capacityGrowth_bounds_witness :
    100 ≤ max_size - 100 / 2 ∧
    (20 ||| kBufferMask) ≤ max_size ∧
    (100 + 100 / 2 ≤ capacityGrowth 100 20 ∧ capacityGrowth 100 20 ≤ max_size) :=
  ⟨by decide, by decide, capacityGrowth_bounds 100 20 (by decide) (by decide)⟩

/-- C10: pre-decrement is not the inverse of pre-increment: the source body of
`StringConstIterator::operator--` is `++ptr`, so after `++p` then `--p` a
cursor starting at address 0 sits at address 2, and `--p` on a cursor at
address 5 moves it forward to 6; the mutable `StringIterator` delegates its
pre-decrement to the same body and advances identically. -/
theorem iterator_pre_decrement_advances :
    StringConstIterator.preDecrement (StringConstIterator.preIncrement ⟨0⟩) = ⟨2⟩ ∧
    (⟨2⟩ : StringConstIterator) ≠ (⟨0⟩ : StringConstIterator) ∧
    StringConstIterator.preDecrement ⟨5⟩ = ⟨6⟩ ∧
    StringIterator.preDecrement (StringIterator.preIncrement ⟨0⟩) = ⟨2⟩ ∧
    StringIterator.preDecrement ⟨5⟩ = ⟨6⟩ := by decide

end TinyStl
